import Mathlib

/-!
Verification of the JSON-to-visualization conversion pipeline
(`src/json_to_vtk/*.py`, `src/json_to_vtk.py`, `src/generate_blender_format.py`).

Numeric JSON values are embedded as rationals (`ℚ`): every operation the
claims concern is a structural pass-through (reshaping, reordering,
zipping, size checks); no floating-point arithmetic is performed on the
values by the modelled code, so the embedding is exact.

A NumPy `ndarray` is embedded as its C-order flat buffer together with its
shape; `reshape` keeps the buffer and swaps the shape, `flatten(order="C")`
returns the buffer.
-/

/-- A NumPy ndarray: shape metadata plus the C-order flat buffer.
`reshape` only rewrites the shape; `flatten(order="C")` reads the buffer. -/
structure NDArray where
  shape : List Nat
  buffer : List ℚ
  deriving DecidableEq, Repr

/-- The expected/actual payload of the size-mismatch `ValueError` raised by
`reshape_scalar_field` ("Expected {expected} elements, got {actual}"). -/
structure SizeMismatch where
  expected : Nat
  actual : Nat
  deriving DecidableEq, Repr

/-- Embeds `reshape_scalar_field` (src/json_to_vtk/utils.py, lines 23-38):
`expected_size = np.prod(dimensions)`; if `len(data) != expected_size` it
raises `ValueError(f"Expected {expected_size} elements, got {len(data)}")`,
otherwise it returns `np.array(data).reshape(dimensions)` — the ndarray with
shape `dimensions` over the unchanged flat buffer. -/
def reshape_scalar_field (data : List ℚ) (dimensions : Nat × Nat × Nat) :
    Except SizeMismatch NDArray :=
  let expected_size := dimensions.1 * dimensions.2.1 * dimensions.2.2
  if data.length ≠ expected_size then
    .error ⟨expected_size, data.length⟩
  else
    .ok ⟨[dimensions.1, dimensions.2.1, dimensions.2.2], data⟩

/-- The raw `grid_info` record of the volume JSON: `dimensions` in the
source's declared axis order `[Z, Y, X]`, plus `voxel_size` and `origin`. -/
structure grid_info_t where
  dimensions : List Nat
  voxel_size : List ℚ
  origin : List ℚ
  deriving DecidableEq, Repr

/-- The base `pv.UniformGrid` skeleton built by `convert_volume_series`. -/
structure BaseGrid where
  dimensions : List Nat
  spacing : List ℚ
  origin : List ℚ
  deriving DecidableEq, Repr

/-- Embeds the grid-skeleton construction of `convert_volume_series`
(src/json_to_vtk/volume_conversion.py, lines 20-28):
`dimensions = tuple(reversed(grid_info["dimensions"]))`,
`spacing = tuple(grid_info["voxel_size"])`, `origin = tuple(grid_info["origin"])`,
assigned onto a fresh `pv.UniformGrid`. -/
def buildBaseGrid (g : grid_info_t) : BaseGrid :=
  { dimensions := g.dimensions.reverse
    spacing := g.voxel_size
    origin := g.origin }

/-- One entry of the volume JSON's `time_steps` list, as consumed by the two
volume converters: the three field keys, each possibly absent. Velocity
entries are 3-component vectors. -/
structure VolStep where
  density_data : Option (List ℚ)
  temperature_data : Option (List ℚ)
  velocity_data : Option (List (ℚ × ℚ × ℚ))
  deriving DecidableEq, Repr

/-- The point-data attached to one `.vti` frame by `convert_volume_series`:
all three fields are mandatory there (a missing key raises `KeyError`). -/
structure VolFrame where
  density : List ℚ
  temperature : List ℚ
  velocity : List (ℚ × ℚ × ℚ)
  deriving DecidableEq, Repr

/-- Embeds the body of the per-timestep loop of `convert_volume_series`
(src/json_to_vtk/volume_conversion.py, lines 30-48). For each scalar field in
`("density_data", "temperature_data")`: `timestep[field]` raises `KeyError`
when the key is absent; `array.reshape(dimensions[::-1])` raises `ValueError`
when the length differs from the product of the dimensions; on success
`reshaped.flatten(order="C")` stores the flat buffer unchanged.
`timestep["velocity_data"]` likewise raises `KeyError` when absent;
`velocity_raw.reshape((-1, 3))` is the identity on a list of 3-vectors and
performs no size check against the grid. -/
def volStepFrame (n : Nat) (s : VolStep) : Except String VolFrame :=
  match s.density_data with
  | none => .error "KeyError: density_data"
  | some d =>
    if d.length = n then
      match s.temperature_data with
      | none => .error "KeyError: temperature_data"
      | some t =>
        if t.length = n then
          match s.velocity_data with
          | none => .error "KeyError: velocity_data"
          | some v => .ok ⟨d, t, v⟩
        else .error "ValueError: cannot reshape temperature_data"
    else .error "ValueError: cannot reshape density_data"

/-- Embeds the timestep loop of `convert_volume_series`: frames are written
to disk one at a time, so an exception in the middle leaves the earlier
frames on disk, emits nothing for the failing timestep, and aborts the rest.
Returns the frames actually produced, paired with the first error if any. -/
def volLoop (n : Nat) : List VolStep → List VolFrame × Option String
  | [] => ([], none)
  | s :: rest =>
    match volStepFrame n s with
    | .error e => ([], some e)
    | .ok f =>
      let r := volLoop n rest
      (f :: r.1, r.2)

/-- Embeds `convert_volume_series` (src/json_to_vtk/volume_conversion.py):
builds the base grid skeleton from `grid_info`, then converts the timesteps
in order until the first uncaught exception. -/
def convert_volume_series (g : grid_info_t) (steps : List VolStep) :
    BaseGrid × List VolFrame × Option String :=
  (buildBaseGrid g, volLoop (g.dimensions.reverse.prod) steps)

/-- The point-data attached to one `.vti` frame by `convert_json_to_vtk`:
each field is optional — absent or size-mismatched input fields are skipped
for that frame only. -/
structure VtkFrame where
  density : Option (List ℚ)
  temperature : Option (List ℚ)
  velocity : Option (List (ℚ × ℚ × ℚ))
  deriving DecidableEq, Repr

/-- Embeds the per-frame field attachment of `convert_json_to_vtk`
(src/src/json_to_vtk.py, lines 149-184): a field key absent from
`frame_data` is simply not attached; a present field whose array shape
differs from `(num_x*num_y*num_z,)` (or `(num_x*num_y*num_z, 3)` for
velocity) is warned about and skipped; a matching field is attached
unchanged. The frame itself is always produced. The skip test, common to
all three fields, is `keepIfLen`. -/
def keepIfLen {α : Type} (o : Option (List α)) (n : Nat) : Option (List α) :=
  match o with
  | some x => if x.length = n then some x else none
  | none => none

/-- One frame of `convert_json_to_vtk`: each field of the timestep is kept
exactly when present with the matching point count (see `keepIfLen`). -/
def frameFields (n : Nat) (s : VolStep) : VtkFrame :=
  { density := keepIfLen s.density_data n
    temperature := keepIfLen s.temperature_data n
    velocity := keepIfLen s.velocity_data n }

/-- Embeds the volume-processing loop of `convert_json_to_vtk`
(src/src/json_to_vtk.py, lines 149-190): every timestep yields exactly one
saved frame, carrying the fields that were present with matching sizes. -/
def convertJsonToVtkFrames (n : Nat) (steps : List VolStep) : List VtkFrame :=
  steps.map (frameFields n)

/-- One `<DataSet .../>` entry of the `.pvd` manifest written by
`generate_pvd`: `timestep=str(time)`, `group=""`, `part="0"`, `file=fname`.
The time value is recorded verbatim (stringification happens only at XML
serialization). -/
structure DataSetEntry where
  timestep : ℚ
  group : String
  part : String
  file : String
  deriving DecidableEq, Repr

/-- Embeds `generate_pvd` (src/json_to_vtk/pvd_writer.py): raises
`ValueError("Mismatch between number of timesteps and filenames")` when the
two lists differ in length, otherwise appends one `DataSet` entry per
`zip(timesteps, filenames)` pair, in input order — no sorting, no
deduplication. -/
def generate_pvd (timesteps : List ℚ) (filenames : List String) :
    Except String (List DataSetEntry) :=
  if timesteps.length ≠ filenames.length then
    .error "Mismatch between number of timesteps and filenames"
  else
    .ok (List.zipWith (fun t f => ⟨t, "", "0", f⟩) timesteps filenames)

/-- A JSON value as far as the vertex-flattening code inspects it: a number
or an array. Python's `isinstance(x, (list, tuple))` holds exactly for the
`arr` constructor. -/
inductive JVal where
  | num (q : ℚ)
  | arr (xs : List JVal)

/-- Python's `isinstance(entry, (list, tuple)) and len(entry) == 3`. -/
def isTriple : JVal → Bool
  | .arr xs => xs.length = 3
  | .num _ => false

/-- The element list of an array value (the flat branch only applies this
under the `isTriple` guard, so the `num` case is unreachable there). -/
def entryItems : JVal → List JVal
  | .arr xs => xs
  | .num _ => []

/-- Embeds the inner coordinate loop of the nested-vertex branch of
`convert_static_mesh` (src/json_to_vtk/mesh_conversion.py, lines 35-40):
each `coord` must be a list/tuple of length 3 — note that the numeric-ness
of its components is never checked — else
`ValueError(f"Invalid vertex coordinate: {coord}")` is raised. -/
def coordsOf : List JVal → Except String (List (List JVal))
  | [] => .ok []
  | c :: rest =>
    match c with
    | .arr cs =>
      if cs.length = 3 then do
        let r ← coordsOf rest
        .ok (cs :: r)
      else .error "Invalid vertex coordinate"
    | .num _ => .error "Invalid vertex coordinate"

/-- Embeds the group loop of the nested-vertex branch of
`convert_static_mesh` (src/json_to_vtk/mesh_conversion.py, lines 32-40):
each group must be a list (`raise ValueError(f"Invalid vertex group: ...")`
otherwise) and contributes its coordinates in order. -/
def flattenGroups : List JVal → Except String (List (List JVal))
  | [] => .ok []
  | g :: rest =>
    match g with
    | .arr coords => do
      let cs ← coordsOf coords
      let r ← flattenGroups rest
      .ok (cs ++ r)
    | .num _ => .error "Invalid vertex group"

/-- Embeds the vertex-flattening step of `convert_static_mesh`
(src/json_to_vtk/mesh_conversion.py, lines 28-40): when every entry of
`vertex_data` is a list/tuple of length 3 the flat branch is taken and each
entry becomes one vertex (`tuple(coord)`), with no check that its
components are numbers; otherwise the input is treated as a list of groups
of coordinates and flattened group by group. -/
def flattenVertices (vertex_data : List JVal) : Except String (List (List JVal)) :=
  if vertex_data.all isTriple then
    .ok (vertex_data.map entryItems)
  else
    flattenGroups vertex_data

/-- Modelled from the spec: the flat-index translation underlying the Field
Reshaper's declared-to-target axis permutation (spec 4.2, 4.1). The source
has no explicit permutation function (volume_conversion.py realizes the
reinterpretation through `reshape(dimensions[::-1])` and a C-order
`flatten`); this is the index map of the axis-reversal the spec describes.
For declared dimensions `(n0, n1, n2)` (slowest-to-fastest, e.g. Z,Y,X) and
a target-order flat position `j` over the reversed dimensions
`(n2, n1, n0)`, it returns the declared-order flat position holding that
grid point: the target coordinate `(j / (n0*n1), j / n0 % n1, j % n0)` is
the declared coordinate read back-to-front. -/
def srcIdx (n0 n1 n2 j : Nat) : Nat :=
  (j % n0 * n1 + j / n0 % n1) * n2 + j / (n0 * n1)

/-- Modelled from the spec: the Field Reshaper's declared-to-target
permutation on flat fields (spec 4.2) — reinterpret the flat sequence as a
3D array in declared axis order `(n0, n1, n2)`, reverse the axes to the
target order, and re-flatten row-major in target order. Absent as an
explicit function from src/; missing indices read as 0 (never reached on
size-valid input). Applying it again with the reversed dimensions
`(n2, n1, n0)` is the inverse permutation. -/
def permuteToTarget (n0 n1 n2 : Nat) (xs : List ℚ) : List ℚ :=
  (List.range (n2 * n1 * n0)).map fun j => xs.getD (srcIdx n0 n1 n2 j) 0

/-- One entry of the mesh JSON's `time_steps` list; `vertices` models
`time_steps[i].get("vertices", [])` for the first frame and the
`'vertices' not in frame_data` test in the animation loop. -/
structure MeshStep where
  vertices : Option (List JVal)

/-- The mesh JSON record as consumed by `convert_static_mesh`:
`static_faces` via `.get` (possibly `None`), `time_steps` via
`.get("time_steps", [])` (a missing key and an empty list coincide). -/
structure MeshData where
  static_faces : Option (List (List Int))
  time_steps : List MeshStep

/-- The `pv.PolyData` written by `convert_static_mesh`: the `(n, 3)` point
array and the formatted cell buffer `[len(face), i1, ..., len(face), ...]`. -/
structure MeshOut where
  points : List (ℚ × ℚ × ℚ)
  cells : List Int
  deriving DecidableEq, Repr

/-- A flattened vertex as a numeric 3-tuple, when it is one. -/
def toPoint : List JVal → Option (ℚ × ℚ × ℚ)
  | [.num a, .num b, .num c] => some (a, b, c)
  | _ => none

/-- Embeds `np.array(vertices, dtype=float)` together with `pv.PolyData`'s
requirement of an `(n, 3)` numeric point array: succeeds exactly when every
flattened vertex is a 3-tuple of numbers. -/
def toPoints : List (List JVal) → Except String (List (ℚ × ℚ × ℚ))
  | [] => .ok []
  | v :: rest =>
    match toPoint v with
    | some p => do
      let r ← toPoints rest
      .ok (p :: r)
    | none => .error "could not convert vertex to float triple"

/-- Embeds `convert_static_mesh` (src/json_to_vtk/mesh_conversion.py):
raises `ValueError("No time_steps found in mesh JSON.")` on a missing or
empty `time_steps` list; flattens the first timestep's vertex list; raises
`ValueError("No valid vertices found in mesh.")` when the flattened list is
empty; then formats every face as `len(face)` followed by its indices —
with no bounds check of any index against the vertex count — and builds the
`pv.PolyData`. Iterating a `None` faces value raises `TypeError`. -/
def convert_static_mesh (m : MeshData) : Except String MeshOut :=
  match m.time_steps with
  | [] => .error "No time_steps found in mesh JSON."
  | st :: _ => do
    let vertices ← flattenVertices (st.vertices.getD [])
    if vertices.isEmpty then
      .error "No valid vertices found in mesh."
    else
      match m.static_faces with
      | none => .error "TypeError: NoneType object is not iterable"
      | some faces => do
        let pts ← toPoints vertices
        .ok ⟨pts, faces.flatMap (fun f => ((f.length : Int)) :: f)⟩

/-- One geometry rebuild performed by the mesh animation loop of
`assemble_fluid_scene`: the frame index, the point buffer set from that
frame's vertices, and the face buffer (always the static faces). -/
structure GeomUpdate where
  frame : Nat
  points : List (ℚ × ℚ × ℚ)
  faces : List (List Int)
  deriving DecidableEq, Repr

/-- Embeds the mesh animation loop of `assemble_fluid_scene`
(src/generate_blender_format.py, lines 197-213): for each
`(frame_idx, frame_data)` in `enumerate(time_steps)` it breaks once
`frame_idx > end_frame`, skips frames without a `vertices` key
(`continue`, with a warning), and otherwise clears the geometry and
rebuilds it wholesale from `frame_data["vertices"]` and the static faces
(`from_pydata`), with no validation of the vertex count. `i` is the index
of the first remaining timestep. -/
def meshFrameUpdates (static_faces : List (List Int)) (end_frame : Nat) :
    Nat → List (Option (List (ℚ × ℚ × ℚ))) → List GeomUpdate
  | _, [] => []
  | i, vs :: rest =>
    if i > end_frame then []
    else
      match vs with
      | none => meshFrameUpdates static_faces end_frame (i + 1) rest
      | some v => ⟨i, v, static_faces⟩ :: meshFrameUpdates static_faces end_frame (i + 1) rest

/-! ## Helper lemmas -/

theorem length_permuteToTarget (n0 n1 n2 : Nat) (xs : List ℚ) :
    (permuteToTarget n0 n1 n2 xs).length = n2 * n1 * n0 := by
  simp [permuteToTarget]

theorem srcIdx_lt (n0 n1 n2 j : Nat) (hj : j < n2 * n1 * n0) :
    srcIdx n0 n1 n2 j < n0 * n1 * n2 := by
  have h0 : 0 < n0 := Nat.pos_of_ne_zero (by rintro rfl; simp at hj)
  have h1 : 0 < n1 := Nat.pos_of_ne_zero (by rintro rfl; simp at hj)
  have h2 : 0 < n2 := Nat.pos_of_ne_zero (by rintro rfl; simp at hj)
  have a0 : j % n0 < n0 := Nat.mod_lt _ h0
  have a1 : j / n0 % n1 < n1 := Nat.mod_lt _ h1
  have a2 : j / (n0 * n1) < n2 := by
    rw [Nat.div_lt_iff_lt_mul (Nat.mul_pos h0 h1)]
    have e : n2 * (n0 * n1) = n2 * n1 * n0 := by ring
    omega
  have b : j % n0 * n1 + j / n0 % n1 < n0 * n1 := by
    calc j % n0 * n1 + j / n0 % n1 < j % n0 * n1 + n1 := by omega
      _ = (j % n0 + 1) * n1 := by ring
      _ ≤ n0 * n1 := Nat.mul_le_mul_right _ (by omega)
  calc (j % n0 * n1 + j / n0 % n1) * n2 + j / (n0 * n1)
      < (j % n0 * n1 + j / n0 % n1) * n2 + n2 := by omega
    _ = (j % n0 * n1 + j / n0 % n1 + 1) * n2 := by ring
    _ ≤ n0 * n1 * n2 := Nat.mul_le_mul_right _ (by omega)

theorem srcIdx_srcIdx (n0 n1 n2 j : Nat) (hj : j < n0 * n1 * n2) :
    srcIdx n0 n1 n2 (srcIdx n2 n1 n0 j) = j := by
  have h0 : 0 < n0 := Nat.pos_of_ne_zero (by rintro rfl; simp at hj)
  have h1 : 0 < n1 := Nat.pos_of_ne_zero (by rintro rfl; simp at hj)
  have h2 : 0 < n2 := Nat.pos_of_ne_zero (by rintro rfl; simp at hj)
  have hu0 : j / (n2 * n1) < n0 := by
    rw [Nat.div_lt_iff_lt_mul (Nat.mul_pos h2 h1)]
    have e : n0 * (n2 * n1) = n0 * n1 * n2 := by ring
    omega
  have hu1 : j / n2 % n1 < n1 := Nat.mod_lt _ h1
  have hu2 : j % n2 < n2 := Nat.mod_lt _ h2
  have hk : srcIdx n2 n1 n0 j =
      (j % n2 * n1 + j / n2 % n1) * n0 + j / (n2 * n1) := rfl
  set u2 := j % n2 with hu2d
  set u1 := j / n2 % n1 with hu1d
  set u0 := j / (n2 * n1) with hu0d
  set a := u2 * n1 + u1 with ha
  have hk2 : srcIdx n2 n1 n0 j = n0 * a + u0 := by rw [hk]; ring
  have hkmod : (n0 * a + u0) % n0 = u0 := by
    rw [Nat.mul_add_mod, Nat.mod_eq_of_lt hu0]
  have hkdiv : (n0 * a + u0) / n0 = a := by
    rw [Nat.mul_add_div h0, Nat.div_eq_of_lt hu0, Nat.add_zero]
  have hamod : a % n1 = u1 := by
    rw [ha]
    rw [Nat.mul_comm u2 n1, Nat.mul_add_mod, Nat.mod_eq_of_lt hu1]
  have hadiv : a / n1 = u2 := by
    rw [ha]
    rw [Nat.mul_comm u2 n1, Nat.mul_add_div h1, Nat.div_eq_of_lt hu1, Nat.add_zero]
  have hkdd : (n0 * a + u0) / (n0 * n1) = u2 := by
    rw [← Nat.div_div_eq_div_mul, hkdiv, hadiv]
  have hr : j % (n2 * n1) = n2 * u1 + u2 := by
    have hrm : j % (n2 * n1) % n2 = u2 := Nat.mod_mod_of_dvd j (Dvd.intro n1 rfl)
    have hrd : j % (n2 * n1) / n2 = u1 := by
      rw [Nat.mod_mul_right_div_self]
    have := Nat.div_add_mod (j % (n2 * n1)) n2
    rw [hrd, hrm] at this
    omega
  have hj' : n2 * n1 * u0 + (n2 * u1 + u2) = j := by
    have := Nat.div_add_mod j (n2 * n1)
    rw [hr] at this
    rw [← hu0d] at this
    linarith [this]
  rw [hk2]
  show ((n0 * a + u0) % n0 * n1 + (n0 * a + u0) / n0 % n1) * n2 +
      (n0 * a + u0) / (n0 * n1) = j
  rw [hkmod, hkdiv, hamod, hkdd]
  rw [← hj']
  ring

theorem permuteToTarget_getD (n0 n1 n2 : Nat) (xs : List ℚ) (j : Nat)
    (hj : j < n2 * n1 * n0) :
    (permuteToTarget n0 n1 n2 xs).getD j 0 = xs.getD (srcIdx n0 n1 n2 j) 0 := by
  simp [permuteToTarget, List.getD_eq_getElem?_getD, List.getElem?_map,
    List.getElem?_range, hj]

/-! ## Claim theorems -/

/-- C1: For every valid GridSpec (three positive dimensions) and every flat
scalar field whose length equals the product of the dimensions, applying
the Field Reshaper's declared-to-target permutation and then the inverse
permutation (the same axis-reversal applied over the reversed dimensions)
yields the original flat sequence unchanged — the round-trip law. -/
theorem permute_roundtrip (n0 n1 n2 : Nat) (xs : List ℚ)
    (h0 : 0 < n0) (h1 : 0 < n1) (h2 : 0 < n2)
    (hlen : xs.length = n0 * n1 * n2) :
    permuteToTarget n2 n1 n0 (permuteToTarget n0 n1 n2 xs) = xs := by
  apply List.ext_getElem
  · rw [length_permuteToTarget, hlen]
  · intro i hi1 hi2
    have hi : i < n0 * n1 * n2 := by rw [hlen] at hi2; exact hi2
    have hsrc : srcIdx n2 n1 n0 i < n2 * n1 * n0 := srcIdx_lt n2 n1 n0 i hi
    rw [← List.getD_eq_getElem _ 0 hi1, ← List.getD_eq_getElem _ 0 hi2,
      permuteToTarget_getD n2 n1 n0 _ i hi,
      permuteToTarget_getD n0 n1 n2 xs _ hsrc,
      srcIdx_srcIdx n0 n1 n2 i hi]

/-- Witness for C1 at a concrete grid: declared dimensions `(2, 1, 3)`, a
6-element field; the permutation genuinely interleaves and the inverse
restores the original sequence. -/
theorem permute_roundtrip_w :
    permuteToTarget 3 1 2 (permuteToTarget 2 1 3 [(1 : ℚ), 2, 3, 4, 5, 6]) =
      [(1 : ℚ), 2, 3, 4, 5, 6] :=
  permute_roundtrip 2 1 3 _ (by decide) (by decide) (by decide) (by decide)

/-- C3: For every flat input whose length differs from the product of the
dimensions, `reshape_scalar_field` fails with the size-mismatch error
reporting the expected and actual sizes and returns nothing; and whenever
it succeeds, the returned array's buffer is exactly the input (never
truncated or padded) and the length matched. -/
theorem reshape_scalar_field_mismatch :
    (∀ (data : List ℚ) (d : Nat × Nat × Nat),
      data.length ≠ d.1 * d.2.1 * d.2.2 →
      reshape_scalar_field data d = .error ⟨d.1 * d.2.1 * d.2.2, data.length⟩) ∧
    (∀ (data : List ℚ) (d : Nat × Nat × Nat) (arr : NDArray),
      reshape_scalar_field data d = .ok arr →
      arr.buffer = data ∧ data.length = d.1 * d.2.1 * d.2.2) := by
  constructor
  · intro data d h
    simp [reshape_scalar_field, h]
  · intro data d arr h
    by_cases hl : data.length = d.1 * d.2.1 * d.2.2
    · simp [reshape_scalar_field, hl] at h
      exact ⟨by rw [← h], hl⟩
    · simp [reshape_scalar_field, hl] at h

/-- Witness for C3: a 2-element field against a 1×1×3 grid fails with
`expected 3, actual 2`, and a 3-element field succeeds with the buffer
passed through unchanged. -/
theorem reshape_scalar_field_mismatch_w :
    reshape_scalar_field [(1 : ℚ), 2] (1, 1, 3) = .error ⟨3, 2⟩ ∧
    ∀ arr, reshape_scalar_field [(1 : ℚ), 2, 3] (1, 1, 3) = .ok arr →
      arr.buffer = [(1 : ℚ), 2, 3] ∧ ([(1 : ℚ), 2, 3]).length = 1 * 1 * 3 :=
  ⟨reshape_scalar_field_mismatch.1 [(1 : ℚ), 2] (1, 1, 3) (by decide),
   fun arr h => reshape_scalar_field_mismatch.2 [(1 : ℚ), 2, 3] (1, 1, 3) arr h⟩

theorem getElem?_zipWith_entries :
    ∀ (ts : List ℚ) (fs : List String) (i : Nat) (t : ℚ) (f : String),
      ts[i]? = some t → fs[i]? = some f →
      (List.zipWith (fun t f => (⟨t, "", "0", f⟩ : DataSetEntry)) ts fs)[i]? =
        some ⟨t, "", "0", f⟩
  | [], _, i, _, _, h, _ => by simp at h
  | _ :: _, [], i, _, _, _, h => by simp at h
  | a :: as, b :: bs, 0, t, f, h1, h2 => by
    simp at h1 h2
    simp [h1, h2]
  | a :: as, b :: bs, i + 1, t, f, h1, h2 => by
    simp at h1 h2
    simpa using getElem?_zipWith_entries as bs i t f h1 h2

/-- C5: For equal-length input lists, `generate_pvd` emits exactly one
manifest entry per `(time, filename)` pair, in the original input order —
never sorted by time, never deduplicated — with each entry's declared time
and file recorded verbatim. -/
theorem generate_pvd_preserves_order (ts : List ℚ) (fs : List String)
    (h : ts.length = fs.length) :
    ∃ es : List DataSetEntry, generate_pvd ts fs = .ok es ∧ es.length = ts.length ∧
      ∀ (i : Nat) (t : ℚ) (f : String), ts[i]? = some t → fs[i]? = some f →
        es[i]? = some (⟨t, "", "0", f⟩ : DataSetEntry) := by
  refine ⟨List.zipWith (fun t f => ⟨t, "", "0", f⟩) ts fs, ?_, ?_, ?_⟩
  · simp [generate_pvd, h]
  · simp [h]
  · intro i t f h1 h2
    exact getElem?_zipWith_entries ts fs i t f h1 h2

/-- Witness for C5: two timesteps at times 0.01 and 0.02 whose filenames
sort lexically in the opposite order still produce manifest entries in
exact input order. -/
theorem generate_pvd_preserves_order_w :
    ∃ es : List DataSetEntry,
      generate_pvd [(1/100 : ℚ), 2/100] ["fluid_b.vti", "fluid_a.vti"] = .ok es ∧
      es[0]? = some (⟨1/100, "", "0", "fluid_b.vti"⟩ : DataSetEntry) ∧
      es[1]? = some (⟨2/100, "", "0", "fluid_a.vti"⟩ : DataSetEntry) := by
  obtain ⟨es, h1, _, h3⟩ :=
    generate_pvd_preserves_order [(1/100 : ℚ), 2/100] ["fluid_b.vti", "fluid_a.vti"] rfl
  exact ⟨es, h1, h3 0 _ _ rfl rfl, h3 1 _ _ rfl rfl⟩

/-- C6: `generate_pvd` fails with the count-mismatch error exactly when the
timestep and filename lists differ in length, and on equal lengths it
succeeds with as many manifest entries as input pairs. -/
theorem generate_pvd_count (ts : List ℚ) (fs : List String) :
    (ts.length ≠ fs.length →
      generate_pvd ts fs = .error "Mismatch between number of timesteps and filenames") ∧
    (ts.length = fs.length →
      ∃ es : List DataSetEntry, generate_pvd ts fs = .ok es ∧ es.length = ts.length) := by
  constructor
  · intro h
    simp [generate_pvd, h]
  · intro h
    exact ⟨List.zipWith (fun t f => ⟨t, "", "0", f⟩) ts fs,
      by simp [generate_pvd, h], by simp [h]⟩

/-- Witness for C6: one timestep against zero filenames fails with the
count-mismatch error; one timestep against one filename succeeds with one
entry. -/
theorem generate_pvd_count_w :
    generate_pvd [(1 : ℚ)] [] = .error "Mismatch between number of timesteps and filenames" ∧
    ∃ es : List DataSetEntry, generate_pvd [(1 : ℚ)] ["fluid_data_t0000.vti"] = .ok es ∧
      es.length = ([(1 : ℚ)]).length :=
  ⟨(generate_pvd_count [(1 : ℚ)] []).1 (by decide),
   (generate_pvd_count [(1 : ℚ)] ["fluid_data_t0000.vti"]).2 rfl⟩

theorem keepIfLen_eq_some {α : Type} (o : Option (List α)) (n : Nat) (d : List α) :
    keepIfLen o n = some d ↔ (o = some d ∧ d.length = n) := by
  cases o with
  | none => simp [keepIfLen]
  | some x =>
    show (if x.length = n then some x else none) = some d ↔
      (some x = some d ∧ d.length = n)
    by_cases h : x.length = n
    · rw [if_pos h]
      constructor
      · intro hxd
        rw [Option.some.injEq] at hxd
        subst hxd
        exact ⟨rfl, h⟩
      · rintro ⟨hx, _⟩
        exact hx
    · rw [if_neg h]
      constructor
      · intro hh
        exact absurd hh (by simp)
      · rintro ⟨hx, hl⟩
        rw [Option.some.injEq] at hx
        subst hx
        exact absurd hl h

/-- C2 counterexample: a 1×1×2 grid and one timestep whose density field
has 1 element instead of 2. `convert_volume_series` raises `ValueError` at
the reshape: no frame is emitted at all for that timestep (rather than a
frame missing only the density field) and the conversion aborts, contrary
to the claim that the mismatch is frame-local and non-fatal. -/
theorem convert_volume_series_mismatch_fatal :
    convert_volume_series ⟨[1, 1, 2], [1, 1, 1], [0, 0, 0]⟩
      [⟨some [5], some [7, 8], some [(0, 0, 0), (0, 0, 0)]⟩] =
    (⟨[2, 1, 1], [1, 1, 1], [0, 0, 0]⟩, [],
      some "ValueError: cannot reshape density_data") := rfl

/-- C2 (amended): in `convert_json_to_vtk`'s volume loop the claim does
hold — every timestep yields exactly one emitted frame, and a frame carries
a field exactly when that field was present in the timestep with the
matching size, so a mismatched or absent field is skipped for that frame
only and conversion never crashes (the function is total). In
`convert_volume_series`, by contrast, a mismatched or absent scalar field
raises and the run aborts at that timestep. -/
theorem convert_json_to_vtk_field_local (n : Nat) (steps : List VolStep) :
    (convertJsonToVtkFrames n steps).length = steps.length ∧
    ∀ (i : Nat) (s : VolStep), steps[i]? = some s →
      ∃ fr : VtkFrame, (convertJsonToVtkFrames n steps)[i]? = some fr ∧
        (∀ d, fr.density = some d ↔ s.density_data = some d ∧ d.length = n) ∧
        (∀ t, fr.temperature = some t ↔ s.temperature_data = some t ∧ t.length = n) ∧
        (∀ v, fr.velocity = some v ↔ s.velocity_data = some v ∧ v.length = n) := by
  refine ⟨by simp [convertJsonToVtkFrames], ?_⟩
  intro i s hs
  refine ⟨frameFields n s, ?_, ?_, ?_, ?_⟩
  · simp [convertJsonToVtkFrames, hs]
  · intro d
    show keepIfLen s.density_data n = some d ↔ _
    exact keepIfLen_eq_some s.density_data n d
  · intro t
    show keepIfLen s.temperature_data n = some t ↔ _
    exact keepIfLen_eq_some s.temperature_data n t
  · intro v
    show keepIfLen s.velocity_data n = some v ↔ _
    exact keepIfLen_eq_some s.velocity_data n v

/-- Witness for C2's amended claim: the same mismatched timestep that kills
`convert_volume_series` yields, under `convert_json_to_vtk`, exactly one
frame whose density slot satisfies the skip-iff-mismatch characterization. -/
theorem convert_json_to_vtk_field_local_w :
    ∃ fr : VtkFrame,
      (convertJsonToVtkFrames 2
        [⟨some [5], some [7, 8], some [(0, 0, 0), (0, 0, 0)]⟩])[0]? = some fr ∧
      (∀ d, fr.density = some d ↔ some [(5 : ℚ)] = some d ∧ d.length = 2) ∧
      (∀ t, fr.temperature = some t ↔ some [(7 : ℚ), 8] = some t ∧ t.length = 2) ∧
      (∀ v, fr.velocity = some v ↔
        some [((0 : ℚ), (0 : ℚ), (0 : ℚ)), (0, 0, 0)] = some v ∧ v.length = 2) :=
  (convert_json_to_vtk_field_local 2
    [⟨some [5], some [7, 8], some [(0, 0, 0), (0, 0, 0)]⟩]).2 0 _ rfl

/-- C4 counterexample: `grid_info` with dimensions `[2, 3, 4]` (declared
Z,Y,X), voxel_size `[1, 2, 3]`, origin `[5, 6, 7]`: the constructed grid
skeleton reverses only the dimensions; the spacing and origin triples do
NOT receive the reversing permutation. -/
theorem buildBaseGrid_spacing_not_permuted :
    (buildBaseGrid ⟨[2, 3, 4], [1, 2, 3], [5, 6, 7]⟩).dimensions = [4, 3, 2] ∧
    (buildBaseGrid ⟨[2, 3, 4], [1, 2, 3], [5, 6, 7]⟩).spacing ≠ [3, 2, 1] ∧
    (buildBaseGrid ⟨[2, 3, 4], [1, 2, 3], [5, 6, 7]⟩).origin ≠ [7, 6, 5] := by
  refine ⟨rfl, ?_, ?_⟩ <;> decide

/-- C4 (amended): for every grid record, the grid skeleton constructed by
`convert_volume_series` reverses the dimensions triple to target order but
passes `voxel_size` and `origin` through in declared order unchanged — the
reversing permutation is applied to the dimensions only. -/
theorem convert_volume_series_grid (g : grid_info_t) (steps : List VolStep) :
    (convert_volume_series g steps).1.dimensions = g.dimensions.reverse ∧
    (convert_volume_series g steps).1.spacing = g.voxel_size ∧
    (convert_volume_series g steps).1.origin = g.origin :=
  ⟨rfl, rfl, rfl⟩

/-- C7 counterexample: three vertices but a face `[0, 1, 5]` whose index 5
is outside `[0, 3)`: `convert_static_mesh` raises no `FaceIndexOutOfRange`
(or any) error and outputs the mesh with the out-of-range index formatted
into the cell buffer. -/
theorem convert_static_mesh_no_bounds_cex :
    convert_static_mesh
      ⟨some [[0, 1, 5]],
       [⟨some [.arr [.num 0, .num 0, .num 0], .arr [.num 1, .num 0, .num 0],
          .arr [.num 0, .num 1, .num 0]]⟩]⟩ =
    .ok ⟨[(0, 0, 0), (1, 0, 0), (0, 1, 0)], [3, 0, 1, 5]⟩ := rfl

/-- C7 (amended): `convert_static_mesh` performs no face-index validation
at all: for every faces list whatsoever — out-of-range indices included —
it succeeds whenever the timestep list is nonempty and the first timestep's
vertices flatten to a nonempty list of numeric 3-tuples, formatting every
face unchecked as its length followed by its indices. -/
theorem convert_static_mesh_no_bounds (m : MeshData) (st : MeshStep)
    (rest : List MeshStep) (faces : List (List Int)) (vs : List (List JVal))
    (pts : List (ℚ × ℚ × ℚ))
    (hts : m.time_steps = st :: rest) (hf : m.static_faces = some faces)
    (hv : flattenVertices (st.vertices.getD []) = .ok vs) (hne : vs ≠ [])
    (hp : toPoints vs = .ok pts) :
    convert_static_mesh m =
      .ok ⟨pts, faces.flatMap (fun f => ((f.length : Int)) :: f)⟩ := by
  rcases m with ⟨sf, ts⟩
  simp only at hts hf
  subst hts
  subst hf
  have hne' : vs.isEmpty = false := by
    cases vs with
    | nil => exact absurd rfl hne
    | cons a l => rfl
  simp [convert_static_mesh, hv, hne', hp, Bind.bind, Except.bind]

/-- Witness for C7's amended claim: two faces, the second referencing
indices 7, 8, 9 against only three vertices, still convert successfully. -/
theorem convert_static_mesh_no_bounds_w :
    convert_static_mesh
      ⟨some [[0, 1, 2], [7, 8, 9]],
       [⟨some [.arr [.num 0, .num 0, .num 0], .arr [.num 1, .num 0, .num 0],
          .arr [.num 0, .num 1, .num 0]]⟩]⟩ =
    .ok ⟨[(0, 0, 0), (1, 0, 0), (0, 1, 0)], [3, 0, 1, 2, 3, 7, 8, 9]⟩ :=
  convert_static_mesh_no_bounds
    ⟨some [[0, 1, 2], [7, 8, 9]],
     [⟨some [.arr [.num 0, .num 0, .num 0], .arr [.num 1, .num 0, .num 0],
        .arr [.num 0, .num 1, .num 0]]⟩]⟩
    ⟨some [.arr [.num 0, .num 0, .num 0], .arr [.num 1, .num 0, .num 0],
       .arr [.num 0, .num 1, .num 0]]⟩
    [] [[0, 1, 2], [7, 8, 9]]
    [[.num 0, .num 0, .num 0], [.num 1, .num 0, .num 0], [.num 0, .num 1, .num 0]]
    [(0, 0, 0), (1, 0, 0), (0, 1, 0)]
    rfl rfl rfl (List.cons_ne_nil _ _) rfl

/-- C8: evaluation at the failing input. The nested regrouping
`[[[0,0,0],[1,1,1],[2,2,2]]]` of the flat vertex list
`[[0,0,0],[1,1,1],[2,2,2]]` is misparsed: because its single group has
exactly 3 elements it passes the flat-branch test and becomes one
pseudo-vertex whose three components are the coordinate lists, with no
malformed-vertex error raised — a different sequence from the three
numeric points the flat form yields. -/
theorem flattenVertices_group_of_three_misparsed :
    flattenVertices
      [.arr [.arr [.num 0, .num 0, .num 0], .arr [.num 1, .num 1, .num 1],
        .arr [.num 2, .num 2, .num 2]]] =
      .ok [[.arr [.num 0, .num 0, .num 0], .arr [.num 1, .num 1, .num 1],
        .arr [.num 2, .num 2, .num 2]]] ∧
    flattenVertices
      [.arr [.num 0, .num 0, .num 0], .arr [.num 1, .num 1, .num 1],
        .arr [.num 2, .num 2, .num 2]] =
      .ok [[.num 0, .num 0, .num 0], [.num 1, .num 1, .num 1],
        [.num 2, .num 2, .num 2]] ∧
    flattenVertices
      [.arr [.arr [.num 0, .num 0, .num 0], .arr [.num 1, .num 1, .num 1],
        .arr [.num 2, .num 2, .num 2]]] ≠
    flattenVertices
      [.arr [.num 0, .num 0, .num 0], .arr [.num 1, .num 1, .num 1],
        .arr [.num 2, .num 2, .num 2]] := by
  refine ⟨rfl, rfl, ?_⟩
  intro h
  rw [show flattenVertices
      [.arr [.arr [.num 0, .num 0, .num 0], .arr [.num 1, .num 1, .num 1],
        .arr [.num 2, .num 2, .num 2]]] =
      .ok [[JVal.arr [.num 0, .num 0, .num 0], .arr [.num 1, .num 1, .num 1],
        .arr [.num 2, .num 2, .num 2]]] from rfl,
    show flattenVertices
      [.arr [.num 0, .num 0, .num 0], .arr [.num 1, .num 1, .num 1],
        .arr [.num 2, .num 2, .num 2]] =
      .ok [[JVal.num 0, .num 0, .num 0], [.num 1, .num 1, .num 1],
        [.num 2, .num 2, .num 2]] from rfl] at h
  simp at h

/-- C9 counterexample: static topology `[[0, 1, 2]]`, frame 0 with three
vertices and frame 1 with only two: the animation loop raises no
`VertexCountMismatch` and does not abort — it rebuilds frame 1's geometry
wholesale from the two vertices against the unchanged face list. -/
theorem meshFrameUpdates_no_count_check_cex :
    meshFrameUpdates [[0, 1, 2]] 1 0
      [some [(0, 0, 0), (1, 0, 0), (0, 1, 0)], some [(0, 0, 0), (1, 0, 0)]] =
    [⟨0, [(0, 0, 0), (1, 0, 0), (0, 1, 0)], [[0, 1, 2]]⟩,
     ⟨1, [(0, 0, 0), (1, 0, 0)], [[0, 1, 2]]⟩] := rfl

/-- C9 (amended): the mesh animation loop performs no vertex-count
validation: every timestep that carries a `vertices` key and lies within
the animation frame range has its geometry rebuilt wholesale from exactly
that timestep's vertices against the unchanged static faces, regardless of
whether the vertex count matches the reference frame; the loop cannot
fail. -/
theorem meshFrameUpdates_rebuilds_all (static_faces : List (List Int))
    (end_frame : Nat) :
    ∀ (frames : List (Option (List (ℚ × ℚ × ℚ)))) (i j : Nat)
      (v : List (ℚ × ℚ × ℚ)),
      frames[j]? = some (some v) → i + j ≤ end_frame →
      (⟨i + j, v, static_faces⟩ : GeomUpdate) ∈
        meshFrameUpdates static_faces end_frame i frames := by
  intro frames
  induction frames with
  | nil =>
    intro i j v hj _
    simp at hj
  | cons hd tl ih =>
    intro i j v hj hle
    have hbr : ¬ i > end_frame := by omega
    cases j with
    | zero =>
      simp at hj
      subst hj
      simp [meshFrameUpdates, hbr]
    | succ j' =>
      have hj' : tl[j']? = some (some v) := by simpa using hj
      have hmem := ih (i + 1) j' v hj' (by omega)
      have e : i + (j' + 1) = (i + 1) + j' := by omega
      rw [e]
      cases hd with
      | none =>
        simpa [meshFrameUpdates, hbr] using hmem
      | some w =>
        simp [meshFrameUpdates, hbr]
        right
        exact hmem

/-- Witness for C9's amended claim: frame 1, carrying two vertices against
reference frame 0's three, is rebuilt (its update is in the loop's output)
rather than rejected. -/
theorem meshFrameUpdates_rebuilds_all_w :
    (⟨1, [(0, 0, 0), (1, 0, 0)], [[0, 1, 2]]⟩ : GeomUpdate) ∈
      meshFrameUpdates [[0, 1, 2]] 1 0
        [some [(0, 0, 0), (1, 0, 0), (0, 1, 0)], some [(0, 0, 0), (1, 0, 0)]] :=
  meshFrameUpdates_rebuilds_all [[0, 1, 2]] 1 _ 0 1 _ rfl (by decide)

/-- C10: `convert_static_mesh` raises an error, producing no output, when
the mesh record's `time_steps` list is missing or empty, and when the
first timestep's vertex list flattens to an empty sequence of points. -/
theorem convert_static_mesh_empty_inputs :
    (∀ m : MeshData, m.time_steps = [] →
      convert_static_mesh m = .error "No time_steps found in mesh JSON.") ∧
    (∀ (m : MeshData) (st : MeshStep) (rest : List MeshStep),
      m.time_steps = st :: rest →
      flattenVertices (st.vertices.getD []) = .ok [] →
      convert_static_mesh m = .error "No valid vertices found in mesh.") := by
  constructor
  · intro m h
    rcases m with ⟨sf, ts⟩
    simp only at h
    subst h
    rfl
  · intro m st rest hts hv
    rcases m with ⟨sf, ts⟩
    simp only at hts
    subst hts
    simp [convert_static_mesh, hv, Bind.bind, Except.bind]

/-- Witness for C10: an empty `time_steps` list (the `.get` default for a
missing key) and a first timestep whose vertex list is empty each produce
the corresponding error. -/
theorem convert_static_mesh_empty_inputs_w :
    convert_static_mesh ⟨some [[0, 1, 2]], []⟩ =
      .error "No time_steps found in mesh JSON." ∧
    convert_static_mesh ⟨some [[0, 1, 2]], [⟨some []⟩]⟩ =
      .error "No valid vertices found in mesh." :=
  ⟨convert_static_mesh_empty_inputs.1 _ rfl,
   convert_static_mesh_empty_inputs.2 _ _ _ rfl rfl⟩
